import Mathlib

/-!
Verification of `pyspark/resource/profile.py` (`ResourceProfile` and
`ResourceProfileBuilder`).

The Python module is embedded shallowly:

* a Python `dict` keyed by resource name is an association list `PyDict`
  in insertion order; `dict[k] = v` replaces the value in place when the
  key is present and appends otherwise, and `dict.update` folds that
  assignment over the argument's items — exactly CPython's behaviour on
  the duplicate-free dictionaries that arise here;
* Python objects are mutable, so the dictionaries held by builders and
  profiles live in an explicit heap `Heap`, addressed by `Nat`
  references; attribute reassignment (`self._executor_resource_requests
  = {}`) produces a fresh reference, while `dict.update` mutates the
  referenced cell in place — this distinction is exactly what the
  Python code exhibits;
* fallible operations (`id` before registration, the `AttributeError`
  on a bare `ExecutorResourceRequest`) return `Except PyError`.

The request value types (`TaskResourceRequest`, `ExecutorResourceRequest`
and their plural accumulators) come from `pyspark/resource/requests.py`,
which is not part of this repository snapshot; they are modelled from the
spec as plain records.  The JVM-delegated mode forwards to
`org.apache.spark.resource.ResourceProfileBuilder`, also outside the
snapshot; its state is modelled from the spec as the same keyed maps.
-/

namespace SparkResource

/-- A record standing for a Python object's attribute set.
Modelled from the spec: `TaskResourceRequest{resourceName: string,
amount: number}` — an immutable value type from the external requests
module (`pyspark/resource/requests.py`, not in this snapshot). -/
structure TaskResourceRequest where
  resourceName : String
  amount : Nat
deriving DecidableEq, Repr

/-- Modelled from the spec: `ExecutorResourceRequest{resourceName,
amount, discoveryScript, vendor}` — an immutable value type from the
external requests module (not in this snapshot). -/
structure ExecutorResourceRequest where
  resourceName : String
  amount : Nat
  discoveryScript : String
  vendor : String
deriving DecidableEq, Repr

/-- A Python dict keyed by resource-name strings, kept in insertion
order as an association list. -/
abbrev PyDict (α : Type) : Type := List (String × α)

variable {α : Type}

/-- Python `d[k] = v`: replace the value at an existing key in place,
otherwise append the new binding at the end. -/
def dictAssign : PyDict α → String → α → PyDict α
  | [], k, v => [(k, v)]
  | (k', v') :: rest, k, v =>
      if k' = k then (k, v) :: rest else (k', v') :: dictAssign rest k v

/-- Python `d.update(u)`: assign every item of `u` into `d` in order. -/
def dictUpdate (d u : PyDict α) : PyDict α :=
  u.foldl (fun acc p => dictAssign acc p.1 p.2) d

/-- Python `d[k]` / `d.get(k)` as an `Option`. -/
def dictLookup : PyDict α → String → Option α
  | [], _ => none
  | (k', v) :: rest, k => if k' = k then some v else dictLookup rest k

/-- The keys of a dict, in order. -/
def dictKeys (d : PyDict α) : List String :=
  d.map Prod.fst

theorem dictLookup_dictAssign_self (d : PyDict α) (k : String) (v : α) :
    dictLookup (dictAssign d k v) k = some v := by
  induction d with
  | nil => simp [dictAssign, dictLookup]
  | cons p rest ih =>
      obtain ⟨k', v'⟩ := p
      by_cases hk : k' = k
      · simp [dictAssign, hk, dictLookup]
      · simp [dictAssign, hk, dictLookup, ih]

theorem dictLookup_dictAssign_ne (d : PyDict α) (k k₂ : String) (v : α)
    (hne : k₂ ≠ k) : dictLookup (dictAssign d k v) k₂ = dictLookup d k₂ := by
  have hne' : k ≠ k₂ := Ne.symm hne
  induction d with
  | nil => simp [dictAssign, dictLookup, hne']
  | cons p rest ih =>
      obtain ⟨k', v'⟩ := p
      by_cases hk : k' = k
      · subst hk
        simp [dictAssign, dictLookup, hne']
      · by_cases hk2 : k' = k₂ <;> simp [dictAssign, hk, dictLookup, hk2, hne, ih]

theorem dictAssign_eq_append_of_not_mem (d : PyDict α) (k : String) (v : α)
    (hk : k ∉ dictKeys d) : dictAssign d k v = d ++ [(k, v)] := by
  induction d with
  | nil => simp [dictAssign]
  | cons p rest ih =>
      obtain ⟨k', v'⟩ := p
      simp only [dictKeys, List.map_cons, List.mem_cons] at hk
      push_neg at hk
      have hk1 : k' ≠ k := Ne.symm hk.1
      simp [dictAssign, hk1, ih hk.2]

theorem dictUpdate_nil (d : PyDict α) : dictUpdate d [] = d := rfl

theorem dictUpdate_cons (d : PyDict α) (k : String) (v : α) (u : PyDict α) :
    dictUpdate d ((k, v) :: u) = dictUpdate (dictAssign d k v) u := rfl

theorem dictUpdate_append (d u₁ u₂ : PyDict α) :
    dictUpdate d (u₁ ++ u₂) = dictUpdate (dictUpdate d u₁) u₂ := by
  simp [dictUpdate, List.foldl_append]

/-- Updating by a dict whose keys are fresh and duplicate-free simply
concatenates the bindings. -/
theorem dictUpdate_eq_append_of_disjoint (u : PyDict α) :
    ∀ d : PyDict α, (dictKeys u).Nodup →
      (∀ k ∈ dictKeys u, k ∉ dictKeys d) → dictUpdate d u = d ++ u := by
  induction u with
  | nil => intro d _ _; simp [dictUpdate]
  | cons p u ih =>
      intro d hnd hdisj
      obtain ⟨k, v⟩ := p
      simp only [dictKeys, List.map_cons, List.nodup_cons] at hnd
      rw [dictUpdate_cons,
        dictAssign_eq_append_of_not_mem d k v
          (hdisj k (by simp [dictKeys])),
        ih (d ++ [(k, v)]) hnd.2, List.append_assoc]
      · simp
      · intro k' hk'
        simp only [dictKeys, List.map_append, List.mem_append] at *
        push_neg
        refine ⟨hdisj k' (by simp [dictKeys, hk']), ?_⟩
        simp only [List.map_cons, List.map_nil, List.mem_singleton]
        intro hkk
        exact hnd.1 (hkk ▸ hk')

theorem dictLookup_dictUpdate_not_mem (u : PyDict α) :
    ∀ d : PyDict α, ∀ k, k ∉ dictKeys u →
      dictLookup (dictUpdate d u) k = dictLookup d k := by
  induction u with
  | nil => intro d k _; rfl
  | cons p u ih =>
      intro d k hk
      obtain ⟨k', v'⟩ := p
      simp only [dictKeys, List.map_cons, List.mem_cons] at hk
      push_neg at hk
      rw [dictUpdate_cons, ih _ k (by simpa [dictKeys] using hk.2),
        dictLookup_dictAssign_ne d k' k v' hk.1]

theorem dictLookup_dictUpdate_mem (u : PyDict α) :
    ∀ d : PyDict α, ∀ k, (dictKeys u).Nodup → k ∈ dictKeys u →
      dictLookup (dictUpdate d u) k = dictLookup u k := by
  induction u with
  | nil => intro d k _ hk; simp [dictKeys] at hk
  | cons p u ih =>
      intro d k hnd hk
      obtain ⟨k', v'⟩ := p
      simp only [dictKeys, List.map_cons, List.nodup_cons] at hnd
      by_cases hkk : k' = k
      · subst hkk
        rw [dictUpdate_cons,
          dictLookup_dictUpdate_not_mem u _ k' (by simpa [dictKeys] using hnd.1),
          dictLookup_dictAssign_self]
        simp [dictLookup]
      · simp only [dictKeys, List.map_cons, List.mem_cons] at hk
        rcases hk with hk | hk
        · exact absurd hk.symm hkk
        · rw [dictUpdate_cons, ih _ k hnd.2 (by simpa [dictKeys] using hk)]
          simp [dictLookup, hkk]

/-- Modelled from the spec: `TaskResourceRequests{requests: Map<string,
TaskResourceRequest>}` — the mutable accumulator group from the external
requests module (not in this snapshot).  Only its `requests` mapping is
read by `profile.py`. -/
structure TaskResourceRequests where
  requests : PyDict TaskResourceRequest
deriving DecidableEq, Repr

/-- Modelled from the spec: `ExecutorResourceRequests{requests:
Map<string, ExecutorResourceRequest>}` — the executor-side accumulator
group from the external requests module (not in this snapshot). -/
structure ExecutorResourceRequests where
  requests : PyDict ExecutorResourceRequest
deriving DecidableEq, Repr

/-- Modelled from the spec: the state of a remote
`org.apache.spark.resource.ResourceProfileBuilder` (the JVM collaborator
is not in this snapshot).  Per the spec its operations mirror the local
`require`/`clear`/`build` on the same name-keyed maps. -/
structure JvmBuilderState where
  executorResources : PyDict ExecutorResourceRequest
  taskResources : PyDict TaskResourceRequest
deriving DecidableEq, Repr

/-- Errors the Python code can raise in the modelled paths. -/
inductive PyError : Type
  | runtimeError (msg : String)
  | attributeError (msg : String)
deriving DecidableEq, Repr

/-- The heap of mutable Python/JVM objects the module manipulates:
executor-request dicts, task-request dicts and remote builder states,
each addressed by a `Nat` reference.  `execNext`/`taskNext`/`jvmNext`
are allocation counters; `nextProfileId` models the engine-assigned
profile identities. -/
structure Heap where
  execDicts : Nat → PyDict ExecutorResourceRequest
  taskDicts : Nat → PyDict TaskResourceRequest
  jvmBuilders : Nat → JvmBuilderState
  execNext : Nat
  taskNext : Nat
  jvmNext : Nat
  nextProfileId : Int

def Heap.readExec (h : Heap) (r : Nat) : PyDict ExecutorResourceRequest :=
  h.execDicts r

def Heap.readTask (h : Heap) (r : Nat) : PyDict TaskResourceRequest :=
  h.taskDicts r

def Heap.writeExec (h : Heap) (r : Nat) (d : PyDict ExecutorResourceRequest) :
    Heap :=
  { h with execDicts := fun j => if j = r then d else h.execDicts j }

def Heap.writeTask (h : Heap) (r : Nat) (d : PyDict TaskResourceRequest) :
    Heap :=
  { h with taskDicts := fun j => if j = r then d else h.taskDicts j }

def Heap.writeJvm (h : Heap) (r : Nat) (s : JvmBuilderState) : Heap :=
  { h with jvmBuilders := fun j => if j = r then s else h.jvmBuilders j }

/-- Allocate a fresh executor-request dict (a `{}` literal or a dict
passed to a constructor), returning its reference. -/
def Heap.allocExec (h : Heap) (d : PyDict ExecutorResourceRequest) :
    Nat × Heap :=
  (h.execNext, { h.writeExec h.execNext d with execNext := h.execNext + 1 })

/-- Allocate a fresh task-request dict, returning its reference. -/
def Heap.allocTask (h : Heap) (d : PyDict TaskResourceRequest) :
    Nat × Heap :=
  (h.taskNext, { h.writeTask h.taskNext d with taskNext := h.taskNext + 1 })

/-- An everywhere-empty heap, used for concrete runs. -/
def emptyHeap : Heap :=
  { execDicts := fun _ => []
    taskDicts := fun _ => []
    jvmBuilders := fun _ => ⟨[], []⟩
    execNext := 0
    taskNext := 0
    jvmNext := 0
    nextProfileId := 0 }

/-- `ResourceProfile`: either backed by a `_java_resource_profile`
handle, or built locally over the two dict references that
`__init__` stored in `_executor_resource_requests` /
`_task_resource_requests`.  The remote handle is modelled from the spec
(the JVM side is not in this snapshot) as the engine-assigned id plus
the remote requirement maps it reports. -/
structure JavaResourceProfile where
  jid : Int
  jexecutorResources : PyDict ExecutorResourceRequest
  jtaskResources : PyDict TaskResourceRequest
deriving DecidableEq, Repr

inductive ResourceProfile : Type
  | java (j : JavaResourceProfile)
  | localProfile (execRef taskRef : Nat)
deriving DecidableEq, Repr

/-- `ResourceProfile.__init__` on the local path: `self._executor_resource_requests
= _exec_req or {}` and likewise for tasks.  Python's `or` replaces a
falsy operand — in particular an *empty* dict — with a freshly
allocated `{}`, so an empty argument dict is not aliased. -/
def mkLocalProfile (execRef taskRef : Nat) (h : Heap) :
    ResourceProfile × Heap :=
  let (er, h₁) :=
    if h.readExec execRef = [] then h.allocExec [] else (execRef, h)
  let (tr, h₂) :=
    if h₁.readTask taskRef = [] then h₁.allocTask [] else (taskRef, h₁)
  (.localProfile er tr, h₂)

/-- `ResourceProfile.id`: the remote-assigned identity, or a
`RuntimeError` when the profile was built locally and never attached to
an engine. -/
def ResourceProfile.id : ResourceProfile → Except PyError Int
  | .java j => .ok j.jid
  | .localProfile _ _ =>
      .error (.runtimeError
        "SparkContext must be created to get the id, get the id after adding the ResourceProfile to an RDD")

/-- `ResourceProfile.taskResources`: rebuilt from the remote handle, or
the dict captured at construction. -/
def ResourceProfile.taskResources :
    ResourceProfile → Heap → PyDict TaskResourceRequest
  | .java j, _ => j.jtaskResources
  | .localProfile _ taskRef, h => h.readTask taskRef

/-- `ResourceProfile.executorResources`: symmetric to `taskResources`. -/
def ResourceProfile.executorResources :
    ResourceProfile → Heap → PyDict ExecutorResourceRequest
  | .java j, _ => j.jexecutorResources
  | .localProfile execRef _, h => h.readExec execRef

/-- `ResourceProfileBuilder`: `_java_resource_profile_builder` is either
a JVM handle (delegated mode) or `None`, in which case the builder owns
the two local dict references. -/
inductive ResourceProfileBuilder : Type
  | localMode (execRef taskRef : Nat)
  | jvmMode (addr : Nat)
deriving DecidableEq, Repr

/-- `ResourceProfileBuilder.__init__` when no JVM is running: allocate
the two empty local dicts. -/
def mkLocalBuilder (h : Heap) : ResourceProfileBuilder × Heap :=
  let (er, h₁) := h.allocExec []
  let (tr, h₂) := h₁.allocTask []
  (.localMode er tr, h₂)

/-- The runtime argument of `require`, declared in the source as
`Union[ExecutorResourceRequest, TaskResourceRequests]`; the executor
accumulator group `ExecutorResourceRequests` is what callers actually
pass on the executor side. -/
inductive RequireArg : Type
  | taskReqs (t : TaskResourceRequests)
  | execReqs (e : ExecutorResourceRequests)
  | execReq (e : ExecutorResourceRequest)
deriving DecidableEq, Repr

/-- `ResourceProfileBuilder.require`.  Dispatch is
`isinstance(resourceRequest, TaskResourceRequests)`: task groups update
the task side, everything else falls to the executor branch.  In local
mode the branch runs `dict.update(resourceRequest.requests)` in place;
a bare `ExecutorResourceRequest` has no `requests` attribute, so that
branch raises `AttributeError` (in delegated mode it raises on the
missing `_java_executor_resource_requests` instead).  The delegated
branches forward to the remote builder, whose merge is modelled from
the spec as the same name-keyed update. -/
def require (b : ResourceProfileBuilder) (resourceRequest : RequireArg)
    (h : Heap) : Except PyError (ResourceProfileBuilder × Heap) :=
  match resourceRequest with
  | .taskReqs tg =>
      match b with
      | .jvmMode addr =>
          .ok (b, h.writeJvm addr
            { h.jvmBuilders addr with
                taskResources :=
                  dictUpdate (h.jvmBuilders addr).taskResources tg.requests })
      | .localMode _ taskRef =>
          .ok (b, h.writeTask taskRef
            (dictUpdate (h.readTask taskRef) tg.requests))
  | .execReqs eg =>
      match b with
      | .jvmMode addr =>
          .ok (b, h.writeJvm addr
            { h.jvmBuilders addr with
                executorResources :=
                  dictUpdate (h.jvmBuilders addr).executorResources eg.requests })
      | .localMode execRef _ =>
          .ok (b, h.writeExec execRef
            (dictUpdate (h.readExec execRef) eg.requests))
  | .execReq _ =>
      match b with
      | .jvmMode _ =>
          .error (.attributeError
            "ExecutorResourceRequest object has no attribute _java_executor_resource_requests")
      | .localMode _ _ =>
          .error (.attributeError
            "ExecutorResourceRequest object has no attribute requests")

/-- `clearExecutorResourceRequests`: in local mode the attribute is
rebound to a fresh `{}` (the old dict object is untouched); in
delegated mode the remote clear is invoked. -/
def clearExecutorResourceRequests (b : ResourceProfileBuilder) (h : Heap) :
    ResourceProfileBuilder × Heap :=
  match b with
  | .localMode _ taskRef =>
      let (er, h₁) := h.allocExec []
      (.localMode er taskRef, h₁)
  | .jvmMode addr =>
      (b, h.writeJvm addr { h.jvmBuilders addr with executorResources := [] })

/-- `clearTaskResourceRequests`: symmetric, task side only. -/
def clearTaskResourceRequests (b : ResourceProfileBuilder) (h : Heap) :
    ResourceProfileBuilder × Heap :=
  match b with
  | .localMode execRef _ =>
      let (tr, h₁) := h.allocTask []
      (.localMode execRef tr, h₁)
  | .jvmMode addr =>
      (b, h.writeJvm addr { h.jvmBuilders addr with taskResources := [] })

/-- The builder's `taskResources` read accessor. -/
def builderTaskResources (b : ResourceProfileBuilder) (h : Heap) :
    PyDict TaskResourceRequest :=
  match b with
  | .localMode _ taskRef => h.readTask taskRef
  | .jvmMode addr => (h.jvmBuilders addr).taskResources

/-- The builder's `executorResources` read accessor. -/
def builderExecutorResources (b : ResourceProfileBuilder) (h : Heap) :
    PyDict ExecutorResourceRequest :=
  match b with
  | .localMode execRef _ => h.readExec execRef
  | .jvmMode addr => (h.jvmBuilders addr).executorResources

/-- `ResourceProfileBuilder.build`: in local mode, construct a
`ResourceProfile` directly from the two accumulated dicts (passed by
reference); in delegated mode, finalize remotely and wrap the returned
handle (the engine-assigned id is modelled from the spec by the heap's
counter). -/
def build (b : ResourceProfileBuilder) (h : Heap) : ResourceProfile × Heap :=
  match b with
  | .localMode execRef taskRef => mkLocalProfile execRef taskRef h
  | .jvmMode addr =>
      (.java
        { jid := h.nextProfileId
          jexecutorResources := (h.jvmBuilders addr).executorResources
          jtaskResources := (h.jvmBuilders addr).taskResources },
        { h with nextProfileId := h.nextProfileId + 1 })

/-- Run a sequence of `require` calls, left to right, stopping at the
first error. -/
def requireSeq (b : ResourceProfileBuilder) (args : List RequireArg)
    (h : Heap) : Except PyError (ResourceProfileBuilder × Heap) :=
  match args with
  | [] => .ok (b, h)
  | a :: rest =>
      match require b a h with
      | .ok (b', h') => requireSeq b' rest h'
      | .error e => .error e

/-- Is the argument one of the two accumulator groups (rather than a
bare `ExecutorResourceRequest`)? -/
def isGroupArg : RequireArg → Bool
  | .execReq _ => false
  | _ => true

/-- All executor-side requirements supplied by a call sequence, in
order. -/
def execRequestsOf : List RequireArg → PyDict ExecutorResourceRequest
  | [] => []
  | .execReqs g :: rest => g.requests ++ execRequestsOf rest
  | _ :: rest => execRequestsOf rest

/-- All task-side requirements supplied by a call sequence, in order. -/
def taskRequestsOf : List RequireArg → PyDict TaskResourceRequest
  | [] => []
  | .taskReqs g :: rest => g.requests ++ taskRequestsOf rest
  | _ :: rest => taskRequestsOf rest

theorem readExec_writeExec_self (h : Heap) (r : Nat)
    (d : PyDict ExecutorResourceRequest) :
    (h.writeExec r d).readExec r = d := by
  simp [Heap.writeExec, Heap.readExec]

theorem readTask_writeTask_self (h : Heap) (r : Nat)
    (d : PyDict TaskResourceRequest) :
    (h.writeTask r d).readTask r = d := by
  simp [Heap.writeTask, Heap.readTask]

theorem readExec_writeTask (h : Heap) (r r' : Nat)
    (d : PyDict TaskResourceRequest) :
    (h.writeTask r' d).readExec r = h.readExec r := rfl

theorem readTask_writeExec (h : Heap) (r r' : Nat)
    (d : PyDict ExecutorResourceRequest) :
    (h.writeExec r' d).readTask r = h.readTask r := rfl

/-- State evolution of a sequence of group-only `require` calls on a
local-mode builder: the builder is returned unchanged, and each side's
dict has been updated, in order, by exactly that side's supplied
requirements. -/
theorem requireSeq_local_spec (args : List RequireArg) :
    ∀ (e t : Nat) (h : Heap), args.all isGroupArg = true →
      ∃ h', requireSeq (.localMode e t) args h = .ok (.localMode e t, h') ∧
        h'.readExec e = dictUpdate (h.readExec e) (execRequestsOf args) ∧
        h'.readTask t = dictUpdate (h.readTask t) (taskRequestsOf args) := by
  induction args with
  | nil =>
      intro e t h _
      exact ⟨h, rfl, by simp [execRequestsOf, dictUpdate],
        by simp [taskRequestsOf, dictUpdate]⟩
  | cons a rest ih =>
      intro e t h hall
      simp only [List.all_cons, Bool.and_eq_true] at hall
      cases a with
      | taskReqs tg =>
          obtain ⟨h', h1, h2, h3⟩ :=
            ih e t (h.writeTask t (dictUpdate (h.readTask t) tg.requests))
              hall.2
          refine ⟨h', ?_, ?_, ?_⟩
          · simpa [requireSeq, require] using h1
          · rw [h2, readExec_writeTask]
            simp [execRequestsOf]
          · rw [h3, readTask_writeTask_self]
            simp [taskRequestsOf, dictUpdate_append]
      | execReqs eg =>
          obtain ⟨h', h1, h2, h3⟩ :=
            ih e t (h.writeExec e (dictUpdate (h.readExec e) eg.requests))
              hall.2
          refine ⟨h', ?_, ?_, ?_⟩
          · simpa [requireSeq, require] using h1
          · rw [h2, readExec_writeExec_self]
            simp [execRequestsOf, dictUpdate_append]
          · rw [h3, readTask_writeExec]
            simp [taskRequestsOf]
      | execReq er => simp [isGroupArg] at hall

/-- C3: after a group-only `require` sequence with pairwise distinct
resource names on a fresh local builder, the two accessors return
exactly the union of the supplied requirements keyed by name. -/
theorem C3_require_sequence_union (h₀ : Heap) (args : List RequireArg)
    (hgroups : args.all isGroupArg = true)
    (hekeys : (dictKeys (execRequestsOf args)).Nodup)
    (htkeys : (dictKeys (taskRequestsOf args)).Nodup) :
    ∃ h', requireSeq (mkLocalBuilder h₀).1 args (mkLocalBuilder h₀).2 =
        .ok ((mkLocalBuilder h₀).1, h') ∧
      builderExecutorResources (mkLocalBuilder h₀).1 h' =
        execRequestsOf args ∧
      builderTaskResources (mkLocalBuilder h₀).1 h' = taskRequestsOf args := by
  obtain ⟨h', h1, h2, h3⟩ :=
    requireSeq_local_spec args h₀.execNext h₀.taskNext (mkLocalBuilder h₀).2
      hgroups
  have hre : (mkLocalBuilder h₀).2.readExec h₀.execNext = [] := by
    simp [mkLocalBuilder, Heap.allocExec, Heap.allocTask, Heap.readExec,
      Heap.writeExec, Heap.writeTask]
  have hrt : (mkLocalBuilder h₀).2.readTask h₀.taskNext = [] := by
    simp [mkLocalBuilder, Heap.allocExec, Heap.allocTask, Heap.readTask,
      Heap.writeExec, Heap.writeTask]
  have hb : (mkLocalBuilder h₀).1 =
      ResourceProfileBuilder.localMode h₀.execNext h₀.taskNext := by
    simp [mkLocalBuilder, Heap.allocExec, Heap.allocTask, Heap.writeExec,
      Heap.writeTask]
  refine ⟨h', by rw [hb]; exact h1, ?_, ?_⟩
  · rw [hb]
    show h'.readExec h₀.execNext = execRequestsOf args
    rw [h2, hre,
      dictUpdate_eq_append_of_disjoint _ _ hekeys (by simp [dictKeys]),
      List.nil_append]
  · rw [hb]
    show h'.readTask h₀.taskNext = taskRequestsOf args
    rw [h3, hrt,
      dictUpdate_eq_append_of_disjoint _ _ htkeys (by simp [dictKeys]),
      List.nil_append]

/-- C4: when two `require` calls on a local-mode builder supply a
requirement for the same resource name on the same side, the later
call's requirement overwrites the earlier one under that name, and the
entries for every resource name the later call does not mention are
unchanged — on the executor side and on the task side alike. -/
theorem C4_later_require_overwrites (e t : Nat) (h : Heap)
    (g₁ g₂ : ExecutorResourceRequests) (u₁ u₂ : TaskResourceRequests)
    (hg₂ : (dictKeys g₂.requests).Nodup)
    (hu₂ : (dictKeys u₂.requests).Nodup) :
    (∃ h₁ h₂,
      require (.localMode e t) (.execReqs g₁) h = .ok (.localMode e t, h₁) ∧
      require (.localMode e t) (.execReqs g₂) h₁ = .ok (.localMode e t, h₂) ∧
      (∀ n ∈ dictKeys g₂.requests,
        dictLookup (builderExecutorResources (.localMode e t) h₂) n =
          dictLookup g₂.requests n) ∧
      (∀ m, m ∉ dictKeys g₂.requests →
        dictLookup (builderExecutorResources (.localMode e t) h₂) m =
          dictLookup (builderExecutorResources (.localMode e t) h₁) m)) ∧
    (∃ h₁ h₂,
      require (.localMode e t) (.taskReqs u₁) h = .ok (.localMode e t, h₁) ∧
      require (.localMode e t) (.taskReqs u₂) h₁ = .ok (.localMode e t, h₂) ∧
      (∀ n ∈ dictKeys u₂.requests,
        dictLookup (builderTaskResources (.localMode e t) h₂) n =
          dictLookup u₂.requests n) ∧
      (∀ m, m ∉ dictKeys u₂.requests →
        dictLookup (builderTaskResources (.localMode e t) h₂) m =
          dictLookup (builderTaskResources (.localMode e t) h₁) m)) := by
  constructor
  · refine ⟨_, _, rfl, rfl, ?_, ?_⟩
    · intro n hn
      show dictLookup
        (Heap.readExec (Heap.writeExec _ e
          (dictUpdate (Heap.readExec _ e) g₂.requests)) e) n = _
      rw [readExec_writeExec_self]
      exact dictLookup_dictUpdate_mem g₂.requests _ n hg₂ hn
    · intro m hm
      show dictLookup
        (Heap.readExec (Heap.writeExec _ e
          (dictUpdate (Heap.readExec _ e) g₂.requests)) e) m = _
      rw [readExec_writeExec_self]
      exact dictLookup_dictUpdate_not_mem g₂.requests _ m hm
  · refine ⟨_, _, rfl, rfl, ?_, ?_⟩
    · intro n hn
      show dictLookup
        (Heap.readTask (Heap.writeTask _ t
          (dictUpdate (Heap.readTask _ t) u₂.requests)) t) n = _
      rw [readTask_writeTask_self]
      exact dictLookup_dictUpdate_mem u₂.requests _ n hu₂ hn
    · intro m hm
      show dictLookup
        (Heap.readTask (Heap.writeTask _ t
          (dictUpdate (Heap.readTask _ t) u₂.requests)) t) m = _
      rw [readTask_writeTask_self]
      exact dictLookup_dictUpdate_not_mem u₂.requests _ m hm

/-- C5: on a local-mode builder in any accumulated state,
`clearExecutorResourceRequests` makes `executorResources` read empty
while `taskResources` is unchanged, and `clearTaskResourceRequests`
empties `taskResources` while `executorResources` is unchanged. -/
theorem C5_clear_frame (e t : Nat) (h : Heap) :
    (builderExecutorResources
        (clearExecutorResourceRequests (.localMode e t) h).1
        (clearExecutorResourceRequests (.localMode e t) h).2 = [] ∧
      builderTaskResources
        (clearExecutorResourceRequests (.localMode e t) h).1
        (clearExecutorResourceRequests (.localMode e t) h).2 =
        builderTaskResources (.localMode e t) h) ∧
    (builderTaskResources
        (clearTaskResourceRequests (.localMode e t) h).1
        (clearTaskResourceRequests (.localMode e t) h).2 = [] ∧
      builderExecutorResources
        (clearTaskResourceRequests (.localMode e t) h).1
        (clearTaskResourceRequests (.localMode e t) h).2 =
        builderExecutorResources (.localMode e t) h) := by
  refine ⟨⟨?_, ?_⟩, ?_, ?_⟩ <;>
    simp [clearExecutorResourceRequests, clearTaskResourceRequests,
      builderExecutorResources, builderTaskResources, Heap.allocExec,
      Heap.allocTask, Heap.writeExec, Heap.writeTask, Heap.readExec,
      Heap.readTask]

/-- C6: on a local-mode builder, a `require` with a task group updates
only the task-side map (by the keyed merge) and leaves the executor
side unchanged, and symmetrically for an executor group. -/
theorem C6_sides_independent (e t : Nat) (h : Heap)
    (tg : TaskResourceRequests) (eg : ExecutorResourceRequests) :
    (∃ h', require (.localMode e t) (.taskReqs tg) h =
        .ok (.localMode e t, h') ∧
      builderExecutorResources (.localMode e t) h' =
        builderExecutorResources (.localMode e t) h ∧
      builderTaskResources (.localMode e t) h' =
        dictUpdate (builderTaskResources (.localMode e t) h) tg.requests) ∧
    (∃ h', require (.localMode e t) (.execReqs eg) h =
        .ok (.localMode e t, h') ∧
      builderTaskResources (.localMode e t) h' =
        builderTaskResources (.localMode e t) h ∧
      builderExecutorResources (.localMode e t) h' =
        dictUpdate (builderExecutorResources (.localMode e t) h)
          eg.requests) := by
  constructor
  · refine ⟨_, rfl, rfl, ?_⟩
    show Heap.readTask (Heap.writeTask _ t
      (dictUpdate (Heap.readTask _ t) tg.requests)) t = _
    rw [readTask_writeTask_self]
    rfl
  · refine ⟨_, rfl, rfl, ?_⟩
    show Heap.readExec (Heap.writeExec _ e
      (dictUpdate (Heap.readExec _ e) eg.requests)) e = _
    rw [readExec_writeExec_self]
    rfl

/-- C7: on a local-mode builder, `build` returns a `ResourceProfile`
whose `executorResources` and `taskResources` equal the builder's two
accumulated maps at the moment `build` is called. -/
theorem C7_build_snapshot (e t : Nat) (h : Heap) :
    ResourceProfile.executorResources (build (.localMode e t) h).1
        (build (.localMode e t) h).2 =
      builderExecutorResources (.localMode e t) h ∧
    ResourceProfile.taskResources (build (.localMode e t) h).1
        (build (.localMode e t) h).2 =
      builderTaskResources (.localMode e t) h := by
  by_cases he : h.execDicts e = [] <;> by_cases ht : h.taskDicts t = [] <;>
    constructor <;>
      simp [build, mkLocalProfile, ResourceProfile.executorResources,
        ResourceProfile.taskResources, builderExecutorResources,
        builderTaskResources, Heap.allocExec, Heap.allocTask,
        Heap.writeExec, Heap.writeTask, Heap.readExec, Heap.readTask,
        he, ht]

/-- C8: `require` returns the builder object itself in every mode and
for every argument on which it succeeds. -/
theorem C8_require_returns_self (b : ResourceProfileBuilder)
    (a : RequireArg) (h : Heap) :
    match require b a h with
    | .ok (b', _) => b' = b
    | .error _ => True := by
  cases b <;> cases a <;> simp [require]

/-- C9: on a local-mode builder, `build` does not mutate the builder's
accumulated state — both accessors read the same contents before and
after the `build` call. -/
theorem C9_build_preserves_builder (e t : Nat) (h : Heap) :
    builderExecutorResources (.localMode e t) (build (.localMode e t) h).2 =
      builderExecutorResources (.localMode e t) h ∧
    builderTaskResources (.localMode e t) (build (.localMode e t) h).2 =
      builderTaskResources (.localMode e t) h := by
  by_cases he : h.execDicts e = [] <;> by_cases ht : h.taskDicts t = [] <;>
    constructor <;>
      simp [build, mkLocalProfile, builderExecutorResources,
        builderTaskResources, Heap.allocExec, Heap.allocTask,
        Heap.writeExec, Heap.writeTask, Heap.readExec, Heap.readTask,
        he, ht]

/-- C10: `require` dispatches solely on the task-group variant; every
non-task argument goes to the executor branch, which merges the
argument's `requests` mapping into the executor side — and a bare
`ExecutorResourceRequest`, although permitted by the declared
signature, carries no such mapping, so `require` fails on it with an
`AttributeError` in either mode (it is not total over its declared
argument type). -/
theorem C10_dispatch_not_total :
    (∀ (b : ResourceProfileBuilder) (h : Heap)
        (er : ExecutorResourceRequest),
      ∃ msg, require b (.execReq er) h = .error (.attributeError msg)) ∧
    (∀ (e t : Nat) (h : Heap) (eg : ExecutorResourceRequests),
      require (.localMode e t) (.execReqs eg) h =
        .ok (.localMode e t,
          h.writeExec e (dictUpdate (h.readExec e) eg.requests))) ∧
    (∀ (e t : Nat) (h : Heap) (tg : TaskResourceRequests),
      require (.localMode e t) (.taskReqs tg) h =
        .ok (.localMode e t,
          h.writeTask t (dictUpdate (h.readTask t) tg.requests))) := by
  refine ⟨fun b h er => ?_, fun e t h eg => rfl, fun e t h tg => rfl⟩
  cases b <;> exact ⟨_, rfl⟩

/-- C2: reading `id` on a locally built, never-registered
`ResourceProfile` always fails (the code raises the `RuntimeError` the
spec calls `NotRegisteredError`), and on a remote-backed profile it
always succeeds with the engine-assigned integer identity. -/
theorem C2_id_registration :
    (∀ e t : Nat,
      ResourceProfile.id (.localProfile e t) =
        .error (.runtimeError
          "SparkContext must be created to get the id, get the id after adding the ResourceProfile to an RDD")) ∧
    (∀ j : JavaResourceProfile,
      ResourceProfile.id (.java j) = .ok j.jid) :=
  ⟨fun _ _ => rfl, fun _ => rfl⟩

/-- A concrete run Python can perform: on a fresh local builder,
`require` a task gpu requirement, `build` a first profile, then
`require` a task cpus requirement on the same builder; return the first
profile's `taskResources["cpus"]` as read just after its construction
and again after the second `require`. -/
def c1Run : Except PyError (Option TaskResourceRequest × Option TaskResourceRequest) :=
  let (b, h₁) := mkLocalBuilder emptyHeap
  do
    let (b₂, h₂) ← require b (.taskReqs ⟨[("gpu", ⟨"gpu", 1⟩)]⟩) h₁
    let (p₁, h₃) := build b₂ h₂
    let atBuild := dictLookup (p₁.taskResources h₃) "cpus"
    let (_, h₄) ← require b₂ (.taskReqs ⟨[("cpus", ⟨"cpus", 2⟩)]⟩) h₃
    pure (atBuild, dictLookup (p₁.taskResources h₄) "cpus")

/-- C1: the code violates the claimed snapshot independence.  The first
profile's task map had no "cpus" entry when `build` returned, yet after
the later `require` call on the builder the same profile observes
`cpus ↦ 2`: `build` passes the builder's dict by reference and
`dict.update` mutates it in place, so an already-built profile's
observable maps do change. -/
theorem C1_first_profile_observes_later_require :
    c1Run = .ok (none, some ⟨"cpus", 2⟩) := by rfl

/-- A concrete two-call sequence for exercising the union property:
one executor gpu requirement, one task gpu requirement. -/
def c3Args : List RequireArg :=
  [.execReqs ⟨[("gpu", ⟨"gpu", 2, "script.sh", "nvidia.com"⟩)]⟩,
   .taskReqs ⟨[("gpu", ⟨"gpu", 1⟩)]⟩]

/-- C3 at the concrete input `c3Args` on a fresh local builder over the
empty heap. -/
theorem C3_require_sequence_union_witness :
    (c3Args.all isGroupArg = true) ∧
    (dictKeys (execRequestsOf c3Args)).Nodup ∧
    (dictKeys (taskRequestsOf c3Args)).Nodup ∧
    (∃ h', requireSeq (mkLocalBuilder emptyHeap).1 c3Args
        (mkLocalBuilder emptyHeap).2 =
        .ok ((mkLocalBuilder emptyHeap).1, h') ∧
      builderExecutorResources (mkLocalBuilder emptyHeap).1 h' =
        execRequestsOf c3Args ∧
      builderTaskResources (mkLocalBuilder emptyHeap).1 h' =
        taskRequestsOf c3Args) :=
  ⟨by decide, by decide, by decide,
    C3_require_sequence_union emptyHeap c3Args (by decide) (by decide)
      (by decide)⟩

def c4ExecFirst : ExecutorResourceRequests :=
  ⟨[("gpu", ⟨"gpu", 2, "", ""⟩), ("fpga", ⟨"fpga", 1, "", ""⟩)]⟩

def c4ExecSecond : ExecutorResourceRequests :=
  ⟨[("gpu", ⟨"gpu", 4, "", "nvidia.com"⟩)]⟩

def c4TaskFirst : TaskResourceRequests :=
  ⟨[("gpu", ⟨"gpu", 1⟩), ("fpga", ⟨"fpga", 1⟩)]⟩

def c4TaskSecond : TaskResourceRequests :=
  ⟨[("gpu", ⟨"gpu", 3⟩)]⟩

/-- C4 at concrete inputs: both calls mention "gpu", the first also
mentions "fpga". -/
theorem C4_later_require_overwrites_witness :
    (dictKeys c4ExecSecond.requests).Nodup ∧
    (dictKeys c4TaskSecond.requests).Nodup ∧
    ((∃ h₁ h₂,
      require (.localMode 0 0) (.execReqs c4ExecFirst) emptyHeap =
        .ok (.localMode 0 0, h₁) ∧
      require (.localMode 0 0) (.execReqs c4ExecSecond) h₁ =
        .ok (.localMode 0 0, h₂) ∧
      (∀ n ∈ dictKeys c4ExecSecond.requests,
        dictLookup (builderExecutorResources (.localMode 0 0) h₂) n =
          dictLookup c4ExecSecond.requests n) ∧
      (∀ m, m ∉ dictKeys c4ExecSecond.requests →
        dictLookup (builderExecutorResources (.localMode 0 0) h₂) m =
          dictLookup (builderExecutorResources (.localMode 0 0) h₁) m)) ∧
    (∃ h₁ h₂,
      require (.localMode 0 0) (.taskReqs c4TaskFirst) emptyHeap =
        .ok (.localMode 0 0, h₁) ∧
      require (.localMode 0 0) (.taskReqs c4TaskSecond) h₁ =
        .ok (.localMode 0 0, h₂) ∧
      (∀ n ∈ dictKeys c4TaskSecond.requests,
        dictLookup (builderTaskResources (.localMode 0 0) h₂) n =
          dictLookup c4TaskSecond.requests n) ∧
      (∀ m, m ∉ dictKeys c4TaskSecond.requests →
        dictLookup (builderTaskResources (.localMode 0 0) h₂) m =
          dictLookup (builderTaskResources (.localMode 0 0) h₁) m))) :=
  ⟨by decide, by decide,
    C4_later_require_overwrites 0 0 emptyHeap c4ExecFirst c4ExecSecond
      c4TaskFirst c4TaskSecond (by decide) (by decide)⟩

end SparkResource
